import Mathlib

/-!
Verification of the cantilever beam sizing calculator (`caca.py`).

The source is a single Python module: three closed-form formula functions
(`cantilever`, `buckling`, `fatigue_stress`), a bisection search for the
base thickness (`find_min_thickness`), a closed-form stress correction
(`optimize_stress`), a second bisection over a trial height
(`optimize_buckling`), and a module-level orchestration of the four steps.

Python floats are modelled as real numbers (exact real arithmetic);
`x ** (1/3)` and `x ** (1/2)` are modelled by `Real.rpow`.  Each `while`
loop halves an interval exactly, so the loop that runs while
`upper - lower > eps` performs exactly `numIters (upper0 - lower0) eps`
iterations; the loops are embedded as that many applications of the
one-step function `bisectStep`.
-/

namespace Caca

noncomputable section

open Classical

/-- `cantilever(d, P, L, a, E, b)` from the source:
`I = (P*a**2*(3*L-a))/(6*E*d); h = (12*I/b)**(1/3)`. -/
def cantilever (d P L a E b : ℝ) : ℝ :=
  (12 * ((P * a ^ 2 * (3 * L - a)) / (6 * E * d)) / b) ^ ((1 : ℝ) / 3)

/-- `buckling(P, E, K, b, h)` from the source:
`L = (pi*h)/(6*K*P)*(3*E*b*h*P)**(1/2)`. -/
def buckling (P E K b h : ℝ) : ℝ :=
  (Real.pi * h) / (6 * K * P) * (3 * E * b * h * P) ^ ((1 : ℝ) / 2)

/-- `fatigue_stress(y, P, L, b, h)` from the source:
`stress = (y * P * L)/(1/12*b*h**3)`. -/
def fatigue_stress (y P L b h : ℝ) : ℝ :=
  (y * P * L) / (1 / 12 * b * h ^ 3)

/-- `calculations(...)` from the source: the pair of the deflection-driven
height at base `change` and the buckling length at
`b = buckling_base, h = change`. -/
def calculations (distributed_force allowable_deflection cantilever_length
    distance_applied youngs_modulus buckling_constant buckling_base
    change : ℝ) : ℝ × ℝ :=
  (cantilever allowable_deflection distributed_force cantilever_length
      distance_applied youngs_modulus change,
    buckling distributed_force youngs_modulus buckling_constant buckling_base
      change)

/-- State of a bisection loop: the bracket `[lo, hi]` together with the most
recently computed midpoint `change` (the value Python's loop variable
`change` holds). -/
structure BisectState where
  lo : ℝ
  hi : ℝ
  change : ℝ

/-- One iteration of the loop body
`change = (lower+upper)/2; if raiseLower change: lower = change else:
upper = change`. -/
def bisectStep (raiseLower : ℝ → Prop) (s : BisectState) : BisectState :=
  if raiseLower ((s.lo + s.hi) / 2) then
    ⟨(s.lo + s.hi) / 2, s.hi, (s.lo + s.hi) / 2⟩
  else
    ⟨s.lo, (s.lo + s.hi) / 2, (s.lo + s.hi) / 2⟩

/-- `n` iterations of the loop body. -/
def bisectN (raiseLower : ℝ → Prop) (s : BisectState) : ℕ → BisectState
  | 0 => s
  | n + 1 => bisectStep raiseLower (bisectN raiseLower s n)

/-- The number of iterations performed by the loop
`while upper - lower > eps`, starting from a bracket of width `w`: the
bracket width after `n` iterations is exactly `w / 2^n`, so the loop stops
at the least `n` for which `w / 2^n ≤ eps`. -/
def numIters (w eps : ℝ) : ℕ :=
  if h : ∃ n : ℕ, w / 2 ^ n ≤ eps then Nat.find h else 0

/-- The infeasibility test of `find_min_thickness`:
`cantilever_height >= buckling_length or
cantilever_height >= maximum_cantilever_height`. -/
def solverInfeasible (distributed_force allowable_deflection cantilever_length
    distance_applied youngs_modulus buckling_constant buckling_base
    maximum_cantilever_height change : ℝ) : Prop :=
  (calculations distributed_force allowable_deflection cantilever_length
      distance_applied youngs_modulus buckling_constant buckling_base
      change).1 ≥
    (calculations distributed_force allowable_deflection cantilever_length
      distance_applied youngs_modulus buckling_constant buckling_base
      change).2 ∨
  (calculations distributed_force allowable_deflection cantilever_length
      distance_applied youngs_modulus buckling_constant buckling_base
      change).1 ≥ maximum_cantilever_height

/-- The loop of `find_min_thickness`: bracket `[0.012, 0.1]`,
`epsilon = 0.0000001`.  The initial `change` field is irrelevant: the
initial width `0.088` exceeds `epsilon`, so the body always runs at least
once and overwrites it; we seed it with the first midpoint. -/
def findLoop (distributed_force allowable_deflection cantilever_length
    distance_applied youngs_modulus buckling_constant buckling_base
    maximum_cantilever_height : ℝ) : BisectState :=
  bisectN
    (solverInfeasible distributed_force allowable_deflection cantilever_length
      distance_applied youngs_modulus buckling_constant buckling_base
      maximum_cantilever_height)
    ⟨0.012, 0.1, (0.012 + 0.1) / 2⟩
    (numIters (0.1 - 0.012) 0.0000001)

/-- `find_min_thickness(...)` from the source: the midpoint at which the
bisection over `[0.012, 0.1]` stops. -/
def find_min_thickness (distributed_force allowable_deflection
    cantilever_length distance_applied youngs_modulus buckling_constant
    buckling_base maximum_cantilever_height : ℝ) : ℝ :=
  (findLoop distributed_force allowable_deflection cantilever_length
    distance_applied youngs_modulus buckling_constant buckling_base
    maximum_cantilever_height).change

/-- `optimize_stress(...)` from the source (`m.sqrt` modelled by
`Real.sqrt`).  Returns the pair `(min_height, base)`. -/
def optimize_stress (stress_force cantilever_length cantilever_base
    maximum_cantilever_height max_stress : ℝ) : ℝ × ℝ :=
  if Real.sqrt (6 * cantilever_length * stress_force * cantilever_base *
        max_stress) / (cantilever_base * max_stress) ≤
      maximum_cantilever_height then
    (Real.sqrt (6 * cantilever_length * stress_force * cantilever_base *
        max_stress) / (cantilever_base * max_stress), cantilever_base)
  else
    (maximum_cantilever_height,
      (6 * cantilever_length * stress_force) /
        (max_stress * maximum_cantilever_height ^ 2))

/-- The cube-root buckling-consistent value computed at the top of
`optimize_buckling`:
`((12*P*(K*height)**2)/(L*pi**2*E))**(1/3)`. -/
def bucklingHeightValue (height distributed_force buckling_constant
    cantilever_length youngs_modulus : ℝ) : ℝ :=
  ((12 * distributed_force * (buckling_constant * height) ^ 2) /
      (cantilever_length * Real.pi ^ 2 * youngs_modulus)) ^ ((1 : ℝ) / 3)

/-- The loop of `optimize_buckling`: bracket `[0, height]`,
`epsilon = 0.0000001`; the lower bound is raised exactly when the stress at
the midpoint is not below `max_stress`.  As in `findLoop`, the seed
`change` is the first midpoint (Python leaves `change` unassigned when the
body never runs, in which case the function raises instead of returning). -/
def stressLoop (height distributed_force buckling_constant cantilever_length
    youngs_modulus stress_force max_stress : ℝ) : BisectState :=
  bisectN
    (fun change =>
      ¬ fatigue_stress (change / 2) stress_force cantilever_length
          (bucklingHeightValue height distributed_force buckling_constant
            cantilever_length youngs_modulus) change < max_stress)
    ⟨0, height, (0 + height) / 2⟩
    (numIters (height - 0) 0.0000001)

set_option linter.unusedVariables false in
/-- `optimize_buckling(...)` from the source.  The parameter
`cantilever_base` is accepted (as in the source) but never read: the stress
search uses `bucklingHeightValue` as the section base.  Returns
`(change, buckling_height)`. -/
def optimize_buckling (height distributed_force buckling_constant
    cantilever_length youngs_modulus stress_force cantilever_base
    max_stress : ℝ) : ℝ × ℝ :=
  ((stressLoop height distributed_force buckling_constant cantilever_length
      youngs_modulus stress_force max_stress).change,
    bucklingHeightValue height distributed_force buckling_constant
      cantilever_length youngs_modulus)

/-- The input surface of the program (spec section 6).  The source supplies
these as module-level constants; the orchestration below is the source's
module-level code parameterized by them.  `deflectionFraction` is the
allowable-deflection fraction of the length (the source hard-codes
`1/180`, the spec exposes it as a configuration field). -/
structure Config where
  totalForce : ℝ
  armCount : ℝ
  stressForceTotal : ℝ
  youngsModulus : ℝ
  bucklingKFactor : ℝ
  cantileverLength : ℝ
  maxHeight : ℝ
  loadOffset : ℝ
  deflectionFraction : ℝ
  maxStress : ℝ

/-- `distributed_force = 4300/num_arms` generalized. -/
def Config.distributedForce (c : Config) : ℝ := c.totalForce / c.armCount

/-- `stress_force = 2900/num_arms` generalized. -/
def Config.stressForce (c : Config) : ℝ := c.stressForceTotal / c.armCount

/-- `allowable_deflection = cantilever_length/180` generalized. -/
def Config.allowableDeflection (c : Config) : ℝ :=
  c.cantileverLength * c.deflectionFraction

/-- `buckling_base = cantilever_length` (source line 100). -/
def Config.bucklingBase (c : Config) : ℝ := c.cantileverLength

/-- `equal_value = find_min_thickness(...)` (source line 109). -/
def Config.solvedBase (c : Config) : ℝ :=
  find_min_thickness c.distributedForce c.allowableDeflection
    c.cantileverLength c.loadOffset c.youngsModulus c.bucklingKFactor
    c.bucklingBase c.maxHeight

/-- `height = cantilever(...)` (source line 112). -/
def Config.solvedHeight (c : Config) : ℝ :=
  cantilever c.allowableDeflection c.distributedForce c.cantileverLength
    c.loadOffset c.youngsModulus c.solvedBase

/-- `stress = fatigue_stress(height/2, ...)` (source line 115). -/
def Config.solvedStress (c : Config) : ℝ :=
  fatigue_stress (c.solvedHeight / 2) c.stressForce c.cantileverLength
    c.solvedBase c.solvedHeight

/-- The module-level orchestration (source lines 109-122): solve for the
base, conditionally correct for stress, conditionally correct for
buckling.  Returns the final `(equal_value, height)`, i.e. (base, height). -/
def orchestrate (c : Config) : ℝ × ℝ :=
  let afterStress : ℝ × ℝ :=
    if c.maxStress < c.solvedStress then
      optimize_stress c.stressForce c.cantileverLength c.solvedBase
        c.maxHeight c.maxStress
    else (c.solvedHeight, c.solvedBase)
  let buckling_height : ℝ :=
    buckling c.distributedForce c.youngsModulus c.bucklingKFactor
      c.bucklingBase afterStress.2
  let afterBuckling : ℝ × ℝ :=
    if buckling_height < afterStress.1 then
      optimize_buckling afterStress.1 c.distributedForce c.bucklingKFactor
        c.cantileverLength c.youngsModulus c.stressForce afterStress.2
        c.maxStress
    else afterStress
  (afterBuckling.2, afterBuckling.1)

/-- `stress = fatigue_stress(height/2, ...)` recomputed at the final
geometry (source line 127). -/
def finalStress (c : Config) : ℝ :=
  fatigue_stress ((orchestrate c).2 / 2) c.stressForce c.cantileverLength
    (orchestrate c).1 (orchestrate c).2

/-- `buckling_height = buckling(...)` recomputed at the final geometry
(source line 128). -/
def finalBucklingLength (c : Config) : ℝ :=
  buckling c.distributedForce c.youngsModulus c.bucklingKFactor
    c.bucklingBase (orchestrate c).1

/-- `deflection = ...` recomputed at the final geometry (source line 129). -/
def finalDeflection (c : Config) : ℝ :=
  (c.distributedForce * c.loadOffset ^ 2 *
      (3 * c.cantileverLength - c.loadOffset)) / (6 * c.youngsModulus) * 1 /
    (1 / 12 * (orchestrate c).1 * (orchestrate c).2 ^ 3)

/-- The reference configuration of spec section 8 (the source's constants). -/
def referenceConfig : Config where
  totalForce := 4300
  armCount := 12
  stressForceTotal := 2900
  youngsModulus := 7.1e10
  bucklingKFactor := 0.5
  cantileverLength := 0.01
  maxHeight := 0.01
  loadOffset := 0.01
  deflectionFraction := 1 / 180
  maxStress := 5.25e8

/-- A configuration whose bracket contains no feasible base: the
deflection allowance is `40` m (fraction `40` of the 1 m length), so the
required height is above 1 m for every base in the bracket, while the
available height is only `1e-9` m.  The solver silently converges to the
top of its bracket; the stress and buckling checks both pass, and the
final height (over 1 m) vastly exceeds the ceiling. -/
def infeasibleCantileverConfig : Config where
  totalForce := 1
  armCount := 1
  stressForceTotal := 1
  youngsModulus := 1
  bucklingKFactor := 1e-6
  cantileverLength := 1
  maxHeight := 1e-9
  loadOffset := 1
  deflectionFraction := 40
  maxStress := 1e12

/-- A benign all-feasible configuration: the deflection allowance `4e15`
makes the required height tiny, so every base in the bracket is feasible
and neither corrector fires. -/
def witnessPipelineConfig : Config where
  totalForce := 1
  armCount := 1
  stressForceTotal := 1
  youngsModulus := 1
  bucklingKFactor := 1
  cantileverLength := 1
  maxHeight := 1
  loadOffset := 1
  deflectionFraction := 4e15
  maxStress := 1e20

/-! ### Python numeric-error semantics of the formula library

The analytic embedding above works in exact real arithmetic, where
out-of-domain inputs are invisible.  To settle the error-handling claim we
re-embed the formula functions with Python's actual numeric behaviour:
division by zero raises `ZeroDivisionError`; `math.sqrt` of a negative
number raises a `ValueError` domain error; but `x ** e` with `x < 0` and a
non-integer float exponent silently returns a `complex` value. -/

/-- Result of a Python float expression: a real value, or a (silently
produced) complex value, whose payload is irrelevant to the claims. -/
inductive PyVal where
  | real (x : ℝ) : PyVal
  | cplx : PyVal

/-- Python numeric exceptions: `ZeroDivisionError`, and the `ValueError`
domain error raised by `math.sqrt`. -/
inductive PyErr where
  | zeroDiv : PyErr
  | domain : PyErr

/-- Python's `x ** e` for a float base: a complex result when `x < 0` and
`e` is not an integer, otherwise the real power. -/
def pypow (x e : ℝ) : PyVal :=
  if x < 0 ∧ ∀ n : ℤ, (n : ℝ) ≠ e then PyVal.cplx else PyVal.real (x ^ e)

/-- Multiplying a Python float by a possibly-complex value stays complex
when the value is complex. -/
def pyMulReal (r : ℝ) : PyVal → PyVal
  | PyVal.real x => PyVal.real (r * x)
  | PyVal.cplx => PyVal.cplx

/-- `math.sqrt`: raises a `ValueError` domain error on negative input. -/
def sqrtPy (x : ℝ) : Except PyErr ℝ :=
  if x < 0 then Except.error PyErr.domain else Except.ok (Real.sqrt x)

/-- `cantilever` with Python's error semantics: computing `I` divides by
`6*E*d`, then `12*I/b` divides by `b`, then `** (1/3)` may go complex. -/
def cantileverPy (d P L a E b : ℝ) : Except PyErr PyVal :=
  if 6 * E * d = 0 then Except.error PyErr.zeroDiv
  else if b = 0 then Except.error PyErr.zeroDiv
  else Except.ok
    (pypow (12 * ((P * a ^ 2 * (3 * L - a)) / (6 * E * d)) / b) ((1:ℝ) / 3))

/-- `buckling` with Python's error semantics: `(pi*h)/(6*K*P)` divides by
`6*K*P`, then the factor `(3*E*b*h*P) ** (1/2)` may go complex. -/
def bucklingPy (P E K b h : ℝ) : Except PyErr PyVal :=
  if 6 * K * P = 0 then Except.error PyErr.zeroDiv
  else Except.ok (pyMulReal ((Real.pi * h) / (6 * K * P))
    (pypow (3 * E * b * h * P) ((1:ℝ) / 2)))

/-! ### Bisection machinery lemmas -/

/-- Each loop iteration halves the bracket width exactly, whichever branch
is taken. -/
theorem bisectStep_width (p : ℝ → Prop) (s : BisectState) :
    (bisectStep p s).hi - (bisectStep p s).lo = (s.hi - s.lo) / 2 := by
  unfold bisectStep
  split <;> simp <;> ring

/-- After `n` iterations the bracket width is exactly the initial width
divided by `2 ^ n`. -/
theorem bisectN_width (p : ℝ → Prop) (s : BisectState) (n : ℕ) :
    (bisectN p s n).hi - (bisectN p s n).lo = (s.hi - s.lo) / 2 ^ n := by
  induction n with
  | zero => simp [bisectN]
  | succ n ih =>
    rw [bisectN, bisectStep_width, ih, pow_succ]
    ring

/-- The brackets are nested and stay ordered, and the midpoint variable
stays inside the current bracket. -/
theorem bisectN_bracket (p : ℝ → Prop) (s : BisectState) (hs : s.lo ≤ s.hi)
    (hc1 : s.lo ≤ s.change) (hc2 : s.change ≤ s.hi) (n : ℕ) :
    s.lo ≤ (bisectN p s n).lo ∧ (bisectN p s n).hi ≤ s.hi ∧
      (bisectN p s n).lo ≤ (bisectN p s n).hi ∧
      (bisectN p s n).lo ≤ (bisectN p s n).change ∧
      (bisectN p s n).change ≤ (bisectN p s n).hi := by
  induction n with
  | zero => exact ⟨le_refl _, le_refl _, hs, hc1, hc2⟩
  | succ n ih =>
    obtain ⟨h1, h2, h3, h4, h5⟩ := ih
    rw [bisectN]
    unfold bisectStep
    split <;> simp only <;>
      refine ⟨by linarith, by linarith, by linarith, by linarith, by linarith⟩

/-- If the raise-lower test holds everywhere on the initial bracket, every
iteration raises the lower bound: after `n+1` iterations the state is
`[hi - w/2^(n+1), hi]` with the midpoint variable equal to the new lower
bound. -/
theorem bisectN_of_forall_raise (p : ℝ → Prop) (s : BisectState)
    (hs : s.lo ≤ s.hi) (hp : ∀ c, s.lo ≤ c → c ≤ s.hi → p c) (n : ℕ) :
    bisectN p s (n + 1) =
      ⟨s.hi - (s.hi - s.lo) / 2 ^ (n + 1), s.hi,
        s.hi - (s.hi - s.lo) / 2 ^ (n + 1)⟩ := by
  have hw : 0 ≤ s.hi - s.lo := by linarith
  induction n with
  | zero =>
    have hmid₁ : s.lo ≤ (s.lo + s.hi) / 2 := by linarith
    have hmid₂ : (s.lo + s.hi) / 2 ≤ s.hi := by linarith
    show bisectStep p (bisectN p s 0) = _
    rw [bisectN]
    unfold bisectStep
    rw [if_pos (hp _ hmid₁ hmid₂)]
    congr 1 <;> ring
  | succ n ih =>
    have hpow : (0:ℝ) < 2 ^ (n + 1) := pow_pos two_pos _
    have hdivle : (s.hi - s.lo) / 2 ^ (n + 1) ≤ s.hi - s.lo := by
      apply div_le_self hw
      calc (1:ℝ) = 2 ^ 0 := by norm_num
      _ ≤ 2 ^ (n + 1) := pow_le_pow_right₀ one_le_two (Nat.zero_le _)
    have hdiv0 : 0 ≤ (s.hi - s.lo) / 2 ^ (n + 1) := div_nonneg hw hpow.le
    show bisectStep p (bisectN p s (n + 1)) = _
    rw [ih]
    unfold bisectStep
    simp only
    rw [if_pos (hp _ (by linarith) (by linarith))]
    congr 1 <;> ring

/-- If the raise-lower test fails everywhere on the initial bracket, every
iteration lowers the upper bound: after `n+1` iterations the state is
`[lo, lo + w/2^(n+1)]` with the midpoint variable equal to the new upper
bound. -/
theorem bisectN_of_forall_lower (p : ℝ → Prop) (s : BisectState)
    (hs : s.lo ≤ s.hi) (hp : ∀ c, s.lo ≤ c → c ≤ s.hi → ¬ p c) (n : ℕ) :
    bisectN p s (n + 1) =
      ⟨s.lo, s.lo + (s.hi - s.lo) / 2 ^ (n + 1),
        s.lo + (s.hi - s.lo) / 2 ^ (n + 1)⟩ := by
  have hw : 0 ≤ s.hi - s.lo := by linarith
  induction n with
  | zero =>
    have hmid₁ : s.lo ≤ (s.lo + s.hi) / 2 := by linarith
    have hmid₂ : (s.lo + s.hi) / 2 ≤ s.hi := by linarith
    show bisectStep p (bisectN p s 0) = _
    rw [bisectN]
    unfold bisectStep
    rw [if_neg (hp _ hmid₁ hmid₂)]
    congr 1 <;> ring
  | succ n ih =>
    have hpow : (0:ℝ) < 2 ^ (n + 1) := pow_pos two_pos _
    have hdivle : (s.hi - s.lo) / 2 ^ (n + 1) ≤ s.hi - s.lo := by
      apply div_le_self hw
      calc (1:ℝ) = 2 ^ 0 := by norm_num
      _ ≤ 2 ^ (n + 1) := pow_le_pow_right₀ one_le_two (Nat.zero_le _)
    have hdiv0 : 0 ≤ (s.hi - s.lo) / 2 ^ (n + 1) := div_nonneg hw hpow.le
    show bisectStep p (bisectN p s (n + 1)) = _
    rw [ih]
    unfold bisectStep
    simp only
    rw [if_neg (hp _ (by linarith) (by linarith))]
    congr 1 <;> ring

/-- The loop always exits: the bracket width after `numIters w eps`
iterations is at most `eps` (for a positive threshold). -/
theorem numIters_le (w eps : ℝ) (heps : 0 < eps) :
    w / 2 ^ numIters w eps ≤ eps := by
  have hex : ∃ n : ℕ, w / 2 ^ n ≤ eps := by
    rcases le_or_lt w eps with h | h
    · exact ⟨0, by simpa using h⟩
    · obtain ⟨n, hn⟩ :=
        pow_unbounded_of_one_lt (w / eps) (by norm_num : (1:ℝ) < 2)
      refine ⟨n, ?_⟩
      have hwlt : w < 2 ^ n * eps := by
        have := (div_lt_iff₀ heps).1 hn
        linarith
      rw [div_le_iff₀ (pow_pos two_pos n)]
      linarith
  rw [numIters, dif_pos hex]
  exact Nat.find_spec hex

/-- Characterization of the exact iteration count. -/
theorem numIters_eq (w eps : ℝ) (k : ℕ) (hk : w / 2 ^ k ≤ eps)
    (hmin : ∀ m, m < k → eps < w / 2 ^ m) : numIters w eps = k := by
  have hex : ∃ n : ℕ, w / 2 ^ n ≤ eps := ⟨k, hk⟩
  rw [numIters, dif_pos hex]
  exact (Nat.find_eq_iff hex).2 ⟨hk, fun m hm => not_le.2 (hmin m hm)⟩

/-- The solver's loop over `[0.012, 0.1]` with `eps = 1e-7` runs exactly 20
iterations. -/
theorem numIters_solver : numIters (0.1 - 0.012) 0.0000001 = 20 := by
  apply numIters_eq
  · norm_num
  · intro m hm
    have h2 : (2:ℝ) ^ m ≤ 2 ^ 19 := pow_le_pow_right₀ one_le_two (by omega)
    have hp : (0:ℝ) < 2 ^ m := pow_pos two_pos m
    rw [lt_div_iff₀ hp]
    have h19 : (2:ℝ) ^ 19 = 524288 := by norm_num
    nlinarith

/-! ### Cube root and square root comparison helpers -/

/-- Cubing a nonnegative cube root recovers the radicand. -/
theorem cbrt_cube (x : ℝ) (hx : 0 ≤ x) : (x ^ ((1:ℝ) / 3)) ^ (3:ℕ) = x := by
  rw [← Real.rpow_natCast (x ^ ((1:ℝ) / 3)) 3, ← Real.rpow_mul hx]
  norm_num

/-- Cube root of a nonnegative cube. -/
theorem cube_cbrt (y : ℝ) (hy : 0 ≤ y) : (y ^ (3:ℕ) : ℝ) ^ ((1:ℝ) / 3) = y := by
  rw [← Real.rpow_natCast y 3, ← Real.rpow_mul hy]
  norm_num

theorem le_cbrt_iff (x y : ℝ) (hx : 0 ≤ x) (hy : 0 ≤ y) :
    y ≤ x ^ ((1:ℝ) / 3) ↔ y ^ (3:ℕ) ≤ x := by
  constructor
  · intro h
    have := pow_le_pow_left₀ hy h 3
    rwa [cbrt_cube x hx] at this
  · intro h
    have := Real.rpow_le_rpow (by positivity) h (by norm_num : (0:ℝ) ≤ 1 / 3)
    rwa [cube_cbrt y hy] at this

theorem cbrt_le_iff (x y : ℝ) (hx : 0 ≤ x) (hy : 0 ≤ y) :
    x ^ ((1:ℝ) / 3) ≤ y ↔ x ≤ y ^ (3:ℕ) := by
  constructor
  · intro h
    have := pow_le_pow_left₀ (Real.rpow_nonneg hx _) h 3
    rwa [cbrt_cube x hx] at this
  · intro h
    have := Real.rpow_le_rpow hx h (by norm_num : (0:ℝ) ≤ 1 / 3)
    rwa [cube_cbrt y hy] at this

theorem cbrt_lt_iff (x y : ℝ) (hx : 0 ≤ x) (hy : 0 ≤ y) :
    x ^ ((1:ℝ) / 3) < y ↔ x < y ^ (3:ℕ) := by
  rw [← not_le, ← not_le, le_cbrt_iff x y hx hy]

theorem lt_cbrt_iff (x y : ℝ) (hx : 0 ≤ x) (hy : 0 ≤ y) :
    y < x ^ ((1:ℝ) / 3) ↔ y ^ (3:ℕ) < x := by
  rw [← not_le, ← not_le, cbrt_le_iff x y hx hy]

/-- For a nonzero height, the stress evaluated at the half-height outer
fibre reduces to `6*F*L/(b*h^2)`. -/
theorem fatigue_stress_half (F L b h : ℝ) (hh : h ≠ 0) :
    fatigue_stress (h / 2) F L b h = 6 * F * L / (b * h ^ 2) := by
  unfold fatigue_stress
  rcases eq_or_ne b 0 with hb | hb
  · subst hb
    simp
  · field_simp
    ring

/-! ### Claims -/

/-- C10: `optimize_buckling` does not depend on the `cantilever_base`
argument it is given: the internal stress search uses the buckling-derived
cube-root value as the cross-section base, never the passed base. -/
theorem optimize_buckling_ignores_base (height distributed_force
    buckling_constant cantilever_length youngs_modulus stress_force
    base1 base2 max_stress : ℝ) :
    optimize_buckling height distributed_force buckling_constant
        cantilever_length youngs_modulus stress_force base1 max_stress =
      optimize_buckling height distributed_force buckling_constant
        cantilever_length youngs_modulus stress_force base2 max_stress := rfl

/-- C7 (counterexample): with positive deflection, force, length, load
offset and modulus but `a = 3*L` (here `d=P=L=E=1`, `a=3`), the moment term
`3*L - a` vanishes, the required height is `0` for every base, and
`cantilever` is not strictly decreasing from base `1` to base `2`. -/
theorem cantilever_not_strictAnti :
    ¬ cantilever 1 1 1 3 1 2 < cantilever 1 1 1 3 1 1 := by
  have h1 : cantilever 1 1 1 3 1 1 = 0 := by
    unfold cantilever
    norm_num
  have h2 : cantilever 1 1 1 3 1 2 = 0 := by
    unfold cantilever
    norm_num
  rw [h1, h2]
  exact lt_irrefl 0

/-- C7 (amended): `cantilever` is strictly decreasing in its base argument
whenever, in addition to the positivity of deflection, force, length, load
offset and modulus, the load offset satisfies `a < 3*L` (so that the moment
term `3*L - a` is positive; at `a = 3*L` the function is constantly zero,
see the counterexample). -/
theorem cantilever_strictAnti (d P L a E b1 b2 : ℝ) (hd : 0 < d)
    (hP : 0 < P) (hL : 0 < L) (ha : 0 < a) (hE : 0 < E) (haL : a < 3 * L)
    (hb1 : 0 < b1) (hb : b1 < b2) :
    cantilever d P L a E b2 < cantilever d P L a E b1 := by
  unfold cantilever
  have h3 : 0 < 3 * L - a := by linarith
  have hI : 0 < P * a ^ 2 * (3 * L - a) / (6 * E * d) := by positivity
  have hb2 : 0 < b2 := lt_trans hb1 hb
  apply Real.rpow_lt_rpow (by positivity) _ (by norm_num)
  gcongr

/-- Witness for `cantilever_strictAnti` at
`d = P = L = a = E = 1`, bases `1 < 2`. -/
theorem cantilever_strictAnti_witness :
    cantilever 1 1 1 1 1 2 < cantilever 1 1 1 1 1 1 :=
  cantilever_strictAnti 1 1 1 1 1 1 2 (by norm_num) (by norm_num)
    (by norm_num) (by norm_num) (by norm_num) (by norm_num) (by norm_num)
    (by norm_num)

/-- C5: for positive force, length, base, stress limit and height ceiling,
`optimize_stress` returns a pair whose fatigue stress (evaluated at
half-height) equals the maximum allowable stress exactly, with the
returned height not exceeding the ceiling. -/
theorem optimize_stress_meets_limit (stress_force cantilever_length
    cantilever_base maximum_cantilever_height max_stress : ℝ)
    (hF : 0 < stress_force) (hL : 0 < cantilever_length)
    (hb : 0 < cantilever_base) (hH : 0 < maximum_cantilever_height)
    (hσ : 0 < max_stress) :
    fatigue_stress
        ((optimize_stress stress_force cantilever_length cantilever_base
            maximum_cantilever_height max_stress).1 / 2)
        stress_force cantilever_length
        (optimize_stress stress_force cantilever_length cantilever_base
          maximum_cantilever_height max_stress).2
        (optimize_stress stress_force cantilever_length cantilever_base
          maximum_cantilever_height max_stress).1 = max_stress ∧
      (optimize_stress stress_force cantilever_length cantilever_base
          maximum_cantilever_height max_stress).1 ≤
        maximum_cantilever_height := by
  set F := stress_force
  set L := cantilever_length
  set b := cantilever_base
  set H := maximum_cantilever_height
  set σ := max_stress
  have hX : 0 < 6 * L * F * b * σ := by positivity
  by_cases hcase : Real.sqrt (6 * L * F * b * σ) / (b * σ) ≤ H
  · rw [optimize_stress, if_pos hcase]
    refine ⟨?_, hcase⟩
    have hh : 0 < Real.sqrt (6 * L * F * b * σ) / (b * σ) :=
      div_pos (Real.sqrt_pos.2 hX) (by positivity)
    rw [fatigue_stress_half _ _ _ _ (ne_of_gt hh)]
    have hh2 : (Real.sqrt (6 * L * F * b * σ) / (b * σ)) ^ 2 =
        6 * L * F / (b * σ) := by
      rw [div_pow, Real.sq_sqrt hX.le]
      field_simp
      ring
    rw [hh2]
    field_simp
    ring
  · rw [optimize_stress, if_neg hcase]
    refine ⟨?_, le_refl _⟩
    rw [fatigue_stress_half _ _ _ _ (ne_of_gt hH)]
    field_simp
    ring

/-- Witness for `optimize_stress_meets_limit` at
`F = L = b = σ = 1`, `H = 3`. -/
theorem optimize_stress_meets_limit_witness :
    fatigue_stress ((optimize_stress 1 1 1 3 1).1 / 2) 1 1
        (optimize_stress 1 1 1 3 1).2 (optimize_stress 1 1 1 3 1).1 = 1 ∧
      (optimize_stress 1 1 1 3 1).1 ≤ 3 :=
  optimize_stress_meets_limit 1 1 1 3 1 (by norm_num) (by norm_num)
    (by norm_num) (by norm_num) (by norm_num)

/-- Applying `optimize_stress` to its own output (feeding the returned base
back in, with the same force, length, ceiling and limit) reproduces the
output exactly. -/
theorem optimize_stress_fixed (stress_force cantilever_length
    cantilever_base maximum_cantilever_height max_stress : ℝ)
    (hF : 0 < stress_force) (hL : 0 < cantilever_length)
    (hb : 0 < cantilever_base) (hH : 0 < maximum_cantilever_height)
    (hσ : 0 < max_stress) :
    optimize_stress stress_force cantilever_length
        (optimize_stress stress_force cantilever_length cantilever_base
          maximum_cantilever_height max_stress).2
        maximum_cantilever_height max_stress =
      optimize_stress stress_force cantilever_length cantilever_base
        maximum_cantilever_height max_stress := by
  set F := stress_force
  set L := cantilever_length
  set b := cantilever_base
  set H := maximum_cantilever_height
  set σ := max_stress
  by_cases hcase : Real.sqrt (6 * L * F * b * σ) / (b * σ) ≤ H
  · have h2 : (optimize_stress F L b H σ).2 = b := by
      rw [optimize_stress, if_pos hcase]
    rw [h2]
  · have h2 : (optimize_stress F L b H σ).2 = 6 * L * F / (σ * H ^ 2) := by
      rw [optimize_stress, if_neg hcase]
    have h1 : (optimize_stress F L b H σ).1 = H := by
      rw [optimize_stress, if_neg hcase]
    have hb2 : (0:ℝ) < 6 * L * F / (σ * H ^ 2) := by positivity
    have hrad : 6 * L * F * (6 * L * F / (σ * H ^ 2)) * σ =
        (6 * L * F / H) ^ 2 := by
      field_simp
      ring
    have hval : Real.sqrt (6 * L * F * (6 * L * F / (σ * H ^ 2)) * σ) /
        (6 * L * F / (σ * H ^ 2) * σ) = H := by
      rw [hrad, Real.sqrt_sq (by positivity)]
      field_simp
      ring
    rw [h2]
    rw [optimize_stress, if_pos (le_of_eq hval), hval]
    rw [optimize_stress, if_neg hcase]

/-- C6: the Stress Corrector is idempotent — re-running it on its own
output changes the height and the base by less than the convergence
tolerance `1e-7` (in fact by exactly zero). -/
theorem optimize_stress_idem (stress_force cantilever_length cantilever_base
    maximum_cantilever_height max_stress : ℝ)
    (hF : 0 < stress_force) (hL : 0 < cantilever_length)
    (hb : 0 < cantilever_base) (hH : 0 < maximum_cantilever_height)
    (hσ : 0 < max_stress) :
    |(optimize_stress stress_force cantilever_length
          (optimize_stress stress_force cantilever_length cantilever_base
            maximum_cantilever_height max_stress).2
          maximum_cantilever_height max_stress).1 -
        (optimize_stress stress_force cantilever_length cantilever_base
          maximum_cantilever_height max_stress).1| < 0.0000001 ∧
      |(optimize_stress stress_force cantilever_length
          (optimize_stress stress_force cantilever_length cantilever_base
            maximum_cantilever_height max_stress).2
          maximum_cantilever_height max_stress).2 -
        (optimize_stress stress_force cantilever_length cantilever_base
          maximum_cantilever_height max_stress).2| < 0.0000001 := by
  rw [optimize_stress_fixed stress_force cantilever_length cantilever_base
    maximum_cantilever_height max_stress hF hL hb hH hσ]
  norm_num

/-- Witness for `optimize_stress_idem` at `F = L = b = σ = 1`, `H = 3`. -/
theorem optimize_stress_idem_witness :
    |(optimize_stress 1 1 (optimize_stress 1 1 1 3 1).2 3 1).1 -
        (optimize_stress 1 1 1 3 1).1| < 0.0000001 ∧
      |(optimize_stress 1 1 (optimize_stress 1 1 1 3 1).2 3 1).2 -
        (optimize_stress 1 1 1 3 1).2| < 0.0000001 :=
  optimize_stress_idem 1 1 1 3 1 (by norm_num) (by norm_num) (by norm_num)
    (by norm_num) (by norm_num)

/-- C4 (counterexample): `optimize_buckling`'s loop on a well-formed
bracket `[0, 2e-7]` (`0 < 2e-7` at entry) runs exactly one iteration and
exits with bracket width exactly `1e-7` — not strictly less than `1e-7`.
(Halving `2e-7` is exact in binary floating point as well, so the Python
loop exits with this exact width too.) -/
theorem stressLoop_width_not_lt :
    ¬ (stressLoop 0.0000002 1 1 1 1 1 1).hi -
        (stressLoop 0.0000002 1 1 1 1 1 1).lo < 0.0000001 := by
  have hN : numIters (0.0000002 - 0) 0.0000001 = 1 := by
    apply numIters_eq
    · norm_num
    · intro m hm
      have hm0 : m = 0 := by omega
      subst hm0
      norm_num
  rw [stressLoop, hN, bisectN_width]
  norm_num

/-- C4 (amended): each bisection loop performs the finite number
`numIters` of iterations and exits with bracket width at most `1e-7`; for
the Dimension Solver's fixed bracket `[0.012, 0.1]` the exit width
`0.088/2^20` is moreover strictly below `1e-7`, but for the Buckling
Corrector's bracket `[0, height]` the exit width can equal `1e-7` exactly
(see the counterexample), so only `≤ 1e-7` holds in general. -/
theorem loops_exit_width (distributed_force allowable_deflection
    cantilever_length distance_applied youngs_modulus buckling_constant
    buckling_base maximum_cantilever_height height stress_force
    max_stress : ℝ) :
    (findLoop distributed_force allowable_deflection cantilever_length
          distance_applied youngs_modulus buckling_constant buckling_base
          maximum_cantilever_height).hi -
        (findLoop distributed_force allowable_deflection cantilever_length
          distance_applied youngs_modulus buckling_constant buckling_base
          maximum_cantilever_height).lo < 0.0000001 ∧
      (stressLoop height distributed_force buckling_constant
          cantilever_length youngs_modulus stress_force max_stress).hi -
        (stressLoop height distributed_force buckling_constant
          cantilever_length youngs_modulus stress_force max_stress).lo ≤
        0.0000001 := by
  constructor
  · rw [findLoop, bisectN_width, numIters_solver]
    norm_num
  · rw [stressLoop, bisectN_width]
    exact numIters_le (height - 0) 0.0000001 (by norm_num)

/-- If the raise-lower test holds only at or below a boundary value
`hstar` (and fails only at or above it), the bisection bracket always
straddles `hstar`. -/
theorem bisectN_boundary (p : ℝ → Prop) (s : BisectState) (hstar : ℝ)
    (hs0 : 0 ≤ s.lo) (hs1 : s.lo ≤ hstar) (hs2 : hstar ≤ s.hi)
    (hpos : 0 < hstar) (hup : ∀ c, 0 < c → p c → c ≤ hstar)
    (hdown : ∀ c, 0 < c → ¬ p c → hstar ≤ c) (n : ℕ) :
    0 ≤ (bisectN p s n).lo ∧ (bisectN p s n).lo ≤ hstar ∧
      hstar ≤ (bisectN p s n).hi := by
  induction n with
  | zero => exact ⟨hs0, hs1, hs2⟩
  | succ n ih =>
    obtain ⟨h1, h2, h3⟩ := ih
    have hhi : 0 < (bisectN p s n).hi := lt_of_lt_of_le hpos h3
    have hmid : 0 < ((bisectN p s n).lo + (bisectN p s n).hi) / 2 := by
      linarith
    rw [bisectN]
    unfold bisectStep
    by_cases hc : p (((bisectN p s n).lo + (bisectN p s n).hi) / 2)
    · rw [if_pos hc]
      exact ⟨hmid.le, hup _ hmid hc, h3⟩
    · rw [if_neg hc]
      exact ⟨h1, h2, hdown _ hmid hc⟩

/-- C9: when the fatigue stress (taken with the buckling-derived cube-root
value as the section base) crosses the allowable limit at a boundary
height `√(6*F*L/(bh*σ))` lying inside the bracket `(0, height)`, the trial
height returned by `optimize_buckling` lies within the bisection tolerance
`1e-7` of that boundary.  The hypothesis `1e-7 < height` makes the loop
body run at least once (the source leaves `change` unassigned otherwise
and raises instead of returning). -/
theorem optimize_buckling_near_boundary (height distributed_force
    buckling_constant cantilever_length youngs_modulus stress_force
    cantilever_base max_stress : ℝ) (hP : 0 < distributed_force)
    (hK : 0 < buckling_constant) (hL : 0 < cantilever_length)
    (hE : 0 < youngs_modulus) (hF : 0 < stress_force) (hσ : 0 < max_stress)
    (hh : 0.0000001 < height)
    (hcross : Real.sqrt (6 * stress_force * cantilever_length /
        (bucklingHeightValue height distributed_force buckling_constant
            cantilever_length youngs_modulus * max_stress)) < height) :
    |(optimize_buckling height distributed_force buckling_constant
          cantilever_length youngs_modulus stress_force cantilever_base
          max_stress).1 -
        Real.sqrt (6 * stress_force * cantilever_length /
          (bucklingHeightValue height distributed_force buckling_constant
              cantilever_length youngs_modulus * max_stress))| ≤
      0.0000001 := by
  have h0 : (0:ℝ) < height := lt_trans (by norm_num) hh
  simp only [optimize_buckling, stressLoop]
  set bh := bucklingHeightValue height distributed_force buckling_constant
    cantilever_length youngs_modulus with hbhdef
  have hbh : 0 < bh := by
    rw [hbhdef]
    unfold bucklingHeightValue
    apply Real.rpow_pos_of_pos
    positivity
  set hstar := Real.sqrt (6 * stress_force * cantilever_length /
    (bh * max_stress)) with hstardef
  have hrad : 0 < 6 * stress_force * cantilever_length / (bh * max_stress) :=
    div_pos (by positivity) (mul_pos hbh hσ)
  have hstarpos : 0 < hstar := by
    rw [hstardef]
    exact Real.sqrt_pos.2 hrad
  have hsq : hstar ^ 2 * (bh * max_stress) =
      6 * stress_force * cantilever_length := by
    rw [hstardef, Real.sq_sqrt hrad.le]
    field_simp
  have hbhσ : 0 < bh * max_stress := mul_pos hbh hσ
  have hup : ∀ c, 0 < c →
      (¬ fatigue_stress (c / 2) stress_force cantilever_length bh c <
        max_stress) → c ≤ hstar := by
    intro c hc hp
    rw [fatigue_stress_half _ _ _ _ (ne_of_gt hc), not_lt] at hp
    have h1 : max_stress * (bh * c ^ 2) ≤
        6 * stress_force * cantilever_length :=
      (le_div_iff₀ (by positivity)).1 hp
    have hc2 : c ^ 2 * (bh * max_stress) ≤ hstar ^ 2 * (bh * max_stress) := by
      nlinarith [h1, hsq]
    exact (pow_le_pow_iff_left₀ hc.le hstarpos.le (by norm_num)).1
      (le_of_mul_le_mul_right hc2 hbhσ)
  have hdown : ∀ c, 0 < c →
      (¬ ¬ fatigue_stress (c / 2) stress_force cantilever_length bh c <
        max_stress) → hstar ≤ c := by
    intro c hc hp
    rw [not_not, fatigue_stress_half _ _ _ _ (ne_of_gt hc)] at hp
    have h1 : 6 * stress_force * cantilever_length <
        max_stress * (bh * c ^ 2) :=
      (div_lt_iff₀ (by positivity)).1 hp
    have hc2 : hstar ^ 2 * (bh * max_stress) < c ^ 2 * (bh * max_stress) := by
      nlinarith [h1, hsq]
    exact le_of_lt ((pow_lt_pow_iff_left₀ hstarpos.le hc.le (by norm_num)).1
      (lt_of_mul_lt_mul_right hc2 hbhσ.le))
  have hinv := bisectN_boundary
    (fun change => ¬ fatigue_stress (change / 2) stress_force
      cantilever_length bh change < max_stress)
    ⟨0, height, (0 + height) / 2⟩ hstar (le_refl 0) hstarpos.le hcross.le
    hstarpos hup hdown (numIters (height - 0) 0.0000001)
  have hbrk := bisectN_bracket
    (fun change => ¬ fatigue_stress (change / 2) stress_force
      cantilever_length bh change < max_stress)
    ⟨0, height, (0 + height) / 2⟩ (by simp only; linarith)
    (by simp only; linarith) (by simp only; linarith)
    (numIters (height - 0) 0.0000001)
  have hwidth := bisectN_width
    (fun change => ¬ fatigue_stress (change / 2) stress_force
      cantilever_length bh change < max_stress)
    ⟨0, height, (0 + height) / 2⟩ (numIters (height - 0) 0.0000001)
  have hEps : ((⟨0, height, (0 + height) / 2⟩ : BisectState).hi -
      (⟨0, height, (0 + height) / 2⟩ : BisectState).lo) /
        2 ^ numIters (height - 0) 0.0000001 ≤ 0.0000001 := by
    simp only
    exact numIters_le (height - 0) 0.0000001 (by norm_num)
  have hwle := (le_of_eq hwidth).trans hEps
  obtain ⟨hA, hB, hC⟩ := hinv
  obtain ⟨g1, g2, g3, g4, g5⟩ := hbrk
  rw [abs_le]
  constructor <;> linarith

/-- At `height = 100`, `P = 1/15000`, `K = L = 1`, `E = 1/pi^2`, the
buckling-derived cube-root value is exactly `2`. -/
theorem bucklingHeightValue_witness_eval :
    bucklingHeightValue 100 (1 / 15000) 1 1 (Real.pi ^ 2)⁻¹ = 2 := by
  unfold bucklingHeightValue
  have h1 : (12 * (1 / 15000) * ((1:ℝ) * 100) ^ 2) /
      (1 * Real.pi ^ 2 * (Real.pi ^ 2)⁻¹) = 8 := by
    have hπ : Real.pi ≠ 0 := Real.pi_ne_zero
    field_simp
    norm_num
  rw [h1, show (8:ℝ) = 2 ^ (3:ℕ) by norm_num, cube_cbrt 2 (by norm_num)]

/-- Witness for `optimize_buckling_near_boundary`: at `height = 100`,
`P = 1/15000`, `K = L = Fs = σ = 1`, `E = 1/pi^2`, the section base is `2`
and the stress boundary height is `√3 < 100`. -/
theorem optimize_buckling_near_boundary_witness :
    |(optimize_buckling 100 (1 / 15000) 1 1 (Real.pi ^ 2)⁻¹ 1 1 1).1 -
        Real.sqrt (6 * 1 * 1 /
          (bucklingHeightValue 100 (1 / 15000) 1 1 (Real.pi ^ 2)⁻¹ * 1))| ≤
      0.0000001 := by
  apply optimize_buckling_near_boundary 100 (1 / 15000) 1 1
    (Real.pi ^ 2)⁻¹ 1 1 1 (by norm_num) (by norm_num) (by norm_num)
    (by positivity) (by norm_num) (by norm_num) (by norm_num)
  rw [bucklingHeightValue_witness_eval,
    show (6 * 1 * 1 / ((2:ℝ) * 1)) = 3 by norm_num]
  exact (Real.sqrt_lt' (by norm_num)).2 (by norm_num)

/-- No integer equals `1/2`. -/
theorem intCast_ne_half (n : ℤ) : (n : ℝ) ≠ (1:ℝ) / 2 := by
  intro h
  have h2 : ((2 * n : ℤ) : ℝ) = ((1 : ℤ) : ℝ) := by
    push_cast
    linarith
  have h3 : (2 * n : ℤ) = 1 := Int.cast_injective h2
  omega

/-- C8 (counterexample): `buckling` evaluated at `b = -1` (all other
arguments `1`) takes an even real root of the negative number `-3` through
`** (1/2)`; Python silently returns a complex value rather than raising a
numeric-domain error. -/
theorem bucklingPy_complex_no_error :
    bucklingPy 1 1 1 (-1) 1 = Except.ok PyVal.cplx := by
  unfold bucklingPy
  rw [if_neg (by norm_num : ¬ (6 * 1 * 1 : ℝ) = 0)]
  have hpow : pypow (3 * 1 * (-1) * 1 * 1) ((1:ℝ) / 2) = PyVal.cplx := by
    unfold pypow
    rw [if_pos ⟨by norm_num, intCast_ne_half⟩]
  rw [hpow]
  rfl

/-- C8 (amended): divisions by a zero dimension do fail fast —
`cantilever` with `base = 0` (and a nonzero `6*E*d` denominator) raises
`ZeroDivisionError`, and `math.sqrt` (the root used by `optimize_stress`)
raises a numeric-domain error on a negative radicand.  But an even real
root of a negative number reached through the `**` operator silently
yields a complex value (see the counterexample), so not every
out-of-domain evaluation raises. -/
theorem formula_domain_errors (d P L a E : ℝ) (hEd : 6 * E * d ≠ 0)
    (x : ℝ) (hx : x < 0) :
    cantileverPy d P L a E 0 = Except.error PyErr.zeroDiv ∧
      sqrtPy x = Except.error PyErr.domain := by
  constructor
  · unfold cantileverPy
    rw [if_neg hEd, if_pos rfl]
  · unfold sqrtPy
    rw [if_pos hx]

/-- Witness for `formula_domain_errors` at `d = P = L = a = E = 1`,
`x = -1`. -/
theorem formula_domain_errors_witness :
    cantileverPy 1 1 1 1 1 0 = Except.error PyErr.zeroDiv ∧
      sqrtPy (-1) = Except.error PyErr.domain :=
  formula_domain_errors 1 1 1 1 1 (by norm_num) (-1) (by norm_num)

/-- C2 (amended): whenever the Dimension Solver's returned midpoint is
feasible — i.e. the solver's own infeasibility test fails at the returned
base, which is the case exactly when the last bisection step lowered the
upper bound — the returned base and its required height satisfy
`height < bucklingCriticalLength(base)` and `height < maxHeight` exactly
(no tolerance needed).  Without this proviso the claim fails: when the
bracket contains no feasible point the bound is violated by an unbounded
margin (see the counterexample). -/
theorem find_min_thickness_feasible (distributed_force allowable_deflection
    cantilever_length distance_applied youngs_modulus buckling_constant
    buckling_base maximum_cantilever_height : ℝ)
    (hfeas : ¬ solverInfeasible distributed_force allowable_deflection
      cantilever_length distance_applied youngs_modulus buckling_constant
      buckling_base maximum_cantilever_height
      (find_min_thickness distributed_force allowable_deflection
        cantilever_length distance_applied youngs_modulus buckling_constant
        buckling_base maximum_cantilever_height)) :
    cantilever allowable_deflection distributed_force cantilever_length
        distance_applied youngs_modulus
        (find_min_thickness distributed_force allowable_deflection
          cantilever_length distance_applied youngs_modulus
          buckling_constant buckling_base maximum_cantilever_height) <
      buckling distributed_force youngs_modulus buckling_constant
        buckling_base
        (find_min_thickness distributed_force allowable_deflection
          cantilever_length distance_applied youngs_modulus
          buckling_constant buckling_base maximum_cantilever_height) ∧
    cantilever allowable_deflection distributed_force cantilever_length
        distance_applied youngs_modulus
        (find_min_thickness distributed_force allowable_deflection
          cantilever_length distance_applied youngs_modulus
          buckling_constant buckling_base maximum_cantilever_height) <
      maximum_cantilever_height := by
  unfold solverInfeasible calculations at hfeas
  push_neg at hfeas
  simpa using hfeas

/-- On the witness configuration `F = L = a = E = K = bb = maxH = 1`,
`d = 4e15`, the required height is below `1e-4` everywhere on the solver's
bracket (the deflection allowance is enormous, so a tiny section
suffices). -/
theorem witnessConfig_cantilever_small : ∀ c : ℝ, 0.012 ≤ c → c ≤ 0.1 →
    cantilever 4e15 1 1 1 1 c < 0.0001 := by
  intro c h1 h2
  have hc : (0:ℝ) < c := by linarith
  unfold cantilever
  rw [cbrt_lt_iff _ _ (by positivity) (by norm_num)]
  have h4 : 12 * ((1 * 1 ^ 2 * (3 * 1 - 1)) / (6 * 1 * (4e15:ℝ))) / c =
      1e-15 / c := by
    norm_num
  rw [h4, div_lt_iff₀ hc]
  nlinarith

/-- On the witness configuration the buckling length exceeds `1.08e-3`
everywhere on the solver's bracket. -/
theorem witnessConfig_buckling_large : ∀ c : ℝ, 0.012 ≤ c → c ≤ 0.1 →
    (0.00108:ℝ) ≤ buckling 1 1 1 1 c := by
  intro c h1 h2
  have hc : (0:ℝ) ≤ c := by linarith
  unfold buckling
  rw [← Real.sqrt_eq_rpow]
  have hs : (0.18:ℝ) ≤ Real.sqrt (3 * 1 * 1 * c * 1) := by
    rw [show (0.18:ℝ) = Real.sqrt (0.18 ^ 2) from
      (Real.sqrt_sq (by norm_num)).symm]
    apply Real.sqrt_le_sqrt
    nlinarith
  have hfac : (0.006:ℝ) ≤ Real.pi * c / (6 * 1 * 1) := by
    have hπ := Real.pi_gt_three
    nlinarith
  calc (0.00108:ℝ) = 0.006 * 0.18 := by norm_num
  _ ≤ Real.pi * c / (6 * 1 * 1) * Real.sqrt (3 * 1 * 1 * c * 1) :=
      mul_le_mul hfac hs (by norm_num) (by positivity)

/-- On the witness configuration the solver's infeasibility test fails
everywhere on the bracket: the required height is below the buckling
length and below the ceiling for every candidate base. -/
theorem witnessConfig_feasible : ∀ c : ℝ, 0.012 ≤ c → c ≤ 0.1 →
    ¬ solverInfeasible 1 4e15 1 1 1 1 1 1 c := by
  intro c h1 h2
  have hcant := witnessConfig_cantilever_small c h1 h2
  have hbl := witnessConfig_buckling_large c h1 h2
  unfold solverInfeasible calculations
  push_neg
  constructor
  · simpa using by linarith
  · simpa using by linarith

/-- Witness for `find_min_thickness_feasible` on the configuration
`F = L = a = E = K = bb = maxH = 1`, `d = 4e15`: the returned midpoint lies
in the bracket, where the test fails everywhere. -/
theorem find_min_thickness_feasible_witness :
    cantilever 4e15 1 1 1 1 (find_min_thickness 1 4e15 1 1 1 1 1 1) <
        buckling 1 1 1 1 (find_min_thickness 1 4e15 1 1 1 1 1 1) ∧
      cantilever 4e15 1 1 1 1 (find_min_thickness 1 4e15 1 1 1 1 1 1) <
        1 := by
  apply find_min_thickness_feasible 1 4e15 1 1 1 1 1 1
  have hbrk := bisectN_bracket
    (solverInfeasible 1 4e15 1 1 1 1 1 1)
    ⟨0.012, 0.1, (0.012 + 0.1) / 2⟩ (by norm_num) (by norm_num)
    (by norm_num) (numIters (0.1 - 0.012) 0.0000001)
  obtain ⟨g1, g2, g3, g4, g5⟩ := hbrk
  apply witnessConfig_feasible
  · calc (0.012:ℝ) ≤ _ := g1
    _ ≤ _ := g4
  · calc _ ≤ _ := g5
    _ ≤ (0.1:ℝ) := g2

/-- C2 (counterexample): on the all-positive configuration
`F = L = a = E = K = bb = 1`, `d = 1e-12`, `maxH = 1e6`, the bracket
contains no feasible base (the required height is over `3e4` m while the
buckling length is under `0.03` m), the solver converges to the upper end
of its bracket, and the returned pair violates
`height ≤ bucklingCriticalLength(base)` even with `1e-6` relative
tolerance — by a factor of about `10^6`. -/
theorem find_min_thickness_tolerance_violated :
    ¬ cantilever 1e-12 1 1 1 1 (find_min_thickness 1 1e-12 1 1 1 1 1 1e6) ≤
        buckling 1 1 1 1 (find_min_thickness 1 1e-12 1 1 1 1 1 1e6) *
          (1 + 0.000001) := by
  have hcant : ∀ c : ℝ, 0.012 ≤ c → c ≤ 0.1 →
      (30000:ℝ) ≤ cantilever 1e-12 1 1 1 1 c := by
    intro c h1 h2
    have hc : (0:ℝ) < c := by linarith
    unfold cantilever
    rw [le_cbrt_iff _ _ (by positivity) (by norm_num)]
    have h4 : 12 * ((1 * 1 ^ 2 * (3 * 1 - 1)) / (6 * 1 * (1e-12:ℝ))) / c =
        4e12 / c := by
      norm_num
    rw [h4, le_div_iff₀ hc]
    nlinarith
  have hbl : ∀ c : ℝ, 0.012 ≤ c → c ≤ 0.1 →
      buckling 1 1 1 1 c ≤ 0.03 := by
    intro c h1 h2
    have hc : (0:ℝ) ≤ c := by linarith
    unfold buckling
    rw [← Real.sqrt_eq_rpow]
    have hs : Real.sqrt (3 * 1 * 1 * c * 1) ≤ 0.55 := by
      rw [show (0.55:ℝ) = Real.sqrt (0.55 ^ 2) from
        (Real.sqrt_sq (by norm_num)).symm]
      apply Real.sqrt_le_sqrt
      nlinarith
    have hfac : Real.pi * c / (6 * 1 * 1) ≤ 0.0525 := by
      have hπ := Real.pi_lt_d2
      have ht : (3.15 - Real.pi) * c ≥ 0 :=
        mul_nonneg (by linarith) hc
      nlinarith
    calc Real.pi * c / (6 * 1 * 1) * Real.sqrt (3 * 1 * 1 * c * 1)
        ≤ 0.0525 * 0.55 :=
          mul_le_mul hfac hs (Real.sqrt_nonneg _) (by norm_num)
    _ ≤ 0.03 := by norm_num
  have hall : ∀ c : ℝ, 0.012 ≤ c → c ≤ 0.1 →
      solverInfeasible 1 1e-12 1 1 1 1 1 1e6 c := by
    intro c h1 h2
    have h3 := hcant c h1 h2
    have h4 := hbl c h1 h2
    unfold solverInfeasible calculations
    left
    simpa using by linarith
  have htraj : find_min_thickness 1 1e-12 1 1 1 1 1 1e6 =
      0.1 - (0.1 - 0.012) / 2 ^ 20 := by
    rw [find_min_thickness, findLoop, numIters_solver,
      show (20:ℕ) = 19 + 1 from rfl,
      bisectN_of_forall_raise _ _ (by norm_num) hall 19]
  rw [htraj]
  have hr1 : (0.012:ℝ) ≤ 0.1 - (0.1 - 0.012) / 2 ^ 20 := by norm_num
  have hr2 : (0.1:ℝ) - (0.1 - 0.012) / 2 ^ 20 ≤ 0.1 := by norm_num
  have h3 := hcant _ hr1 hr2
  have h4 := hbl _ hr1 hr2
  intro hcontra
  nlinarith

/-- When the stress check and the buckling check both pass, neither
corrector fires and the pipeline returns the solver's pair unchanged. -/
theorem orchestrate_no_corrections (cfg : Config)
    (hstress : cfg.solvedStress ≤ cfg.maxStress)
    (hbuck : cfg.solvedHeight ≤ buckling cfg.distributedForce
      cfg.youngsModulus cfg.bucklingKFactor cfg.bucklingBase
      cfg.solvedBase) :
    orchestrate cfg = (cfg.solvedBase, cfg.solvedHeight) := by
  simp only [orchestrate]
  rw [if_neg (not_lt.2 hstress)]
  simp only
  rw [if_neg (not_lt.2 hbuck)]

/-- C1 (amended): the end-of-pipeline invariant holds provided the
Dimension Solver's returned midpoint is feasible (its own test fails at
the returned base) and the stress check passes — then neither corrector
fires and the final pair satisfies all three constraints: final height at
most the buckling-critical length at the final base, final stress at most
the limit, and final height at most the ceiling.  In general the
invariant can fail: when the solver's bracket contains no feasible point
the returned pair can violate the ceiling (see the counterexample). -/
theorem orchestrate_invariant_of_checks (cfg : Config)
    (hfeas : ¬ solverInfeasible cfg.distributedForce
      cfg.allowableDeflection cfg.cantileverLength cfg.loadOffset
      cfg.youngsModulus cfg.bucklingKFactor cfg.bucklingBase cfg.maxHeight
      cfg.solvedBase)
    (hstress : cfg.solvedStress ≤ cfg.maxStress) :
    (orchestrate cfg).2 ≤ finalBucklingLength cfg ∧
      finalStress cfg ≤ cfg.maxStress ∧
      (orchestrate cfg).2 ≤ cfg.maxHeight := by
  unfold solverInfeasible calculations at hfeas
  push_neg at hfeas
  simp only at hfeas
  obtain ⟨hA, hB⟩ := hfeas
  have hA' : cfg.solvedHeight < buckling cfg.distributedForce
      cfg.youngsModulus cfg.bucklingKFactor cfg.bucklingBase
      cfg.solvedBase := hA
  have hB' : cfg.solvedHeight < cfg.maxHeight := hB
  have horch := orchestrate_no_corrections cfg hstress (le_of_lt hA')
  refine ⟨?_, ?_, ?_⟩
  · rw [finalBucklingLength, horch]
    exact le_of_lt hA'
  · rw [finalStress, horch]
    exact hstress
  · rw [horch]
    exact le_of_lt hB'

/-- The solved base of `witnessPipelineConfig` in raw-argument form. -/
theorem witnessPipelineConfig_solvedBase :
    witnessPipelineConfig.solvedBase =
      find_min_thickness 1 4e15 1 1 1 1 1 1 := by
  norm_num [Config.solvedBase, Config.distributedForce,
    Config.allowableDeflection, Config.bucklingBase, witnessPipelineConfig]

/-- The returned base of any `find_min_thickness` run lies in the
bracket `[0.012, 0.1]`. -/
theorem find_min_thickness_mem (distributed_force allowable_deflection
    cantilever_length distance_applied youngs_modulus buckling_constant
    buckling_base maximum_cantilever_height : ℝ) :
    0.012 ≤ find_min_thickness distributed_force allowable_deflection
        cantilever_length distance_applied youngs_modulus buckling_constant
        buckling_base maximum_cantilever_height ∧
      find_min_thickness distributed_force allowable_deflection
        cantilever_length distance_applied youngs_modulus buckling_constant
        buckling_base maximum_cantilever_height ≤ 0.1 := by
  have hbrk := bisectN_bracket
    (solverInfeasible distributed_force allowable_deflection
      cantilever_length distance_applied youngs_modulus buckling_constant
      buckling_base maximum_cantilever_height)
    ⟨0.012, 0.1, (0.012 + 0.1) / 2⟩ (by norm_num) (by norm_num)
    (by norm_num) (numIters (0.1 - 0.012) 0.0000001)
  obtain ⟨g1, g2, g3, g4, g5⟩ := hbrk
  constructor
  · calc (0.012:ℝ) ≤ _ := g1
    _ ≤ _ := g4
  · calc _ ≤ _ := g5
    _ ≤ (0.1:ℝ) := g2

/-- Witness for `orchestrate_invariant_of_checks` on
`witnessPipelineConfig`: the solver's midpoint is feasible and the stress
check passes, so the full invariant holds at the end of the pipeline. -/
theorem orchestrate_invariant_of_checks_witness :
    (orchestrate witnessPipelineConfig).2 ≤
        finalBucklingLength witnessPipelineConfig ∧
      finalStress witnessPipelineConfig ≤ witnessPipelineConfig.maxStress ∧
      (orchestrate witnessPipelineConfig).2 ≤
        witnessPipelineConfig.maxHeight := by
  obtain ⟨hm1, hm2⟩ := find_min_thickness_mem 1 4e15 1 1 1 1 1 1
  have e1 : witnessPipelineConfig.distributedForce = 1 := by
    norm_num [Config.distributedForce, witnessPipelineConfig]
  have e2 : witnessPipelineConfig.allowableDeflection = 4e15 := by
    norm_num [Config.allowableDeflection, witnessPipelineConfig]
  have e3 : witnessPipelineConfig.bucklingBase = 1 := rfl
  have e4 : witnessPipelineConfig.cantileverLength = 1 := rfl
  have e5 : witnessPipelineConfig.loadOffset = 1 := rfl
  have e6 : witnessPipelineConfig.youngsModulus = 1 := rfl
  have e7 : witnessPipelineConfig.bucklingKFactor = 1 := rfl
  have e8 : witnessPipelineConfig.maxHeight = 1 := rfl
  have e9 : witnessPipelineConfig.maxStress = 1e20 := rfl
  have e10 : witnessPipelineConfig.stressForce = 1 := by
    norm_num [Config.stressForce, witnessPipelineConfig]
  apply orchestrate_invariant_of_checks
  · rw [e1, e2, e3, e4, e5, e6, e7, e8, witnessPipelineConfig_solvedBase]
    exact witnessConfig_feasible _ hm1 hm2
  · rw [Config.solvedStress, Config.solvedHeight, e1, e2, e4, e5, e6, e9,
      e10, witnessPipelineConfig_solvedBase]
    have hhlow : (0.00002:ℝ) ≤
        cantilever 4e15 1 1 1 1 (find_min_thickness 1 4e15 1 1 1 1 1 1) := by
      have hb0 : (0:ℝ) < find_min_thickness 1 4e15 1 1 1 1 1 1 := by
        linarith
      unfold cantilever
      rw [le_cbrt_iff _ _ (by positivity) (by norm_num)]
      have h4 : 12 * ((1 * 1 ^ 2 * (3 * 1 - 1)) / (6 * 1 * (4e15:ℝ))) /
          find_min_thickness 1 4e15 1 1 1 1 1 1 =
          1e-15 / find_min_thickness 1 4e15 1 1 1 1 1 1 := by
        norm_num
      rw [h4, le_div_iff₀ hb0]
      nlinarith
    have hh0 : (0:ℝ) <
        cantilever 4e15 1 1 1 1 (find_min_thickness 1 4e15 1 1 1 1 1 1) := by
      linarith
    rw [fatigue_stress_half _ _ _ _ (ne_of_gt hh0)]
    have hh2 : (0.00002:ℝ) ^ 2 ≤
        (cantilever 4e15 1 1 1 1 (find_min_thickness 1 4e15 1 1 1 1 1 1)) ^ 2 :=
      pow_le_pow_left₀ (by norm_num) hhlow 2
    have hden : (0.012:ℝ) * 0.00002 ^ 2 ≤
        find_min_thickness 1 4e15 1 1 1 1 1 1 *
          (cantilever 4e15 1 1 1 1 (find_min_thickness 1 4e15 1 1 1 1 1 1)) ^ 2 :=
      mul_le_mul hm1 hh2 (by positivity) (by linarith)
    calc 6 * 1 * 1 / (find_min_thickness 1 4e15 1 1 1 1 1 1 *
          (cantilever 4e15 1 1 1 1 (find_min_thickness 1 4e15 1 1 1 1 1 1)) ^ 2)
        ≤ 6 * 1 * 1 / (0.012 * 0.00002 ^ 2) := by
          gcongr
    _ ≤ 1e20 := by norm_num

/-- On the infeasible configuration every candidate base in the bracket
fails the solver's test: the required height is at least `1` m, above the
`1e-9` m ceiling. -/
theorem infeasibleConfig_all_infeasible : ∀ c : ℝ, 0.012 ≤ c → c ≤ 0.1 →
    solverInfeasible 1 40 1 1 1 1e-6 1 1e-9 c := by
  intro c h1 h2
  have hc : (0:ℝ) < c := by linarith
  have hcant : (1:ℝ) ≤ cantilever 40 1 1 1 1 c := by
    unfold cantilever
    rw [le_cbrt_iff _ _ (by positivity) (by norm_num)]
    have h4 : 12 * ((1 * 1 ^ 2 * (3 * 1 - 1)) / (6 * 1 * (40:ℝ))) / c =
        0.1 / c := by
      norm_num
    rw [h4, le_div_iff₀ hc]
    nlinarith
  unfold solverInfeasible calculations
  right
  simpa using by linarith

/-- With no feasible base anywhere, every iteration raises the lower
bound and the solver returns the top end of its bracket. -/
theorem infeasibleConfig_solver_result :
    find_min_thickness 1 40 1 1 1 1e-6 1 1e-9 =
      0.1 - (0.1 - 0.012) / 2 ^ 20 := by
  rw [find_min_thickness, findLoop, numIters_solver,
    show (20:ℕ) = 19 + 1 from rfl,
    bisectN_of_forall_raise _ _ (by norm_num)
      infeasibleConfig_all_infeasible 19]

/-- Bounds on the required height at the base the solver returns on the
infeasible configuration: strictly above `1` m and at most `2` m. -/
theorem infeasibleConfig_height_bounds :
    1 < cantilever 40 1 1 1 1 (0.1 - (0.1 - 0.012) / 2 ^ 20) ∧
      cantilever 40 1 1 1 1 (0.1 - (0.1 - 0.012) / 2 ^ 20) ≤ 2 := by
  have h4 : 12 * ((1 * 1 ^ 2 * (3 * 1 - 1)) / (6 * 1 * (40:ℝ))) /
      (0.1 - (0.1 - 0.012) / 2 ^ 20) =
      0.1 / (0.1 - (0.1 - 0.012) / 2 ^ 20) := by
    norm_num
  constructor
  · unfold cantilever
    rw [lt_cbrt_iff _ _ (by norm_num) (by norm_num), h4,
      lt_div_iff₀ (by norm_num)]
    norm_num
  · unfold cantilever
    rw [cbrt_le_iff _ _ (by norm_num) (by norm_num), h4,
      div_le_iff₀ (by norm_num)]
    norm_num

/-- The buckling check passes on the infeasible configuration: the
buckling length at the returned base is at least `2` m (the tiny K-factor
makes it huge). -/
theorem infeasibleConfig_buckling_large :
    (2:ℝ) ≤ buckling 1 1 1e-6 1 (0.1 - (0.1 - 0.012) / 2 ^ 20) := by
  unfold buckling
  rw [← Real.sqrt_eq_rpow]
  have hs : (0.5:ℝ) ≤
      Real.sqrt (3 * 1 * 1 * (0.1 - (0.1 - 0.012) / 2 ^ 20) * 1) := by
    rw [show (0.5:ℝ) = Real.sqrt (0.5 ^ 2) from
      (Real.sqrt_sq (by norm_num)).symm]
    apply Real.sqrt_le_sqrt
    norm_num
  have hfac : (45000:ℝ) ≤
      Real.pi * (0.1 - (0.1 - 0.012) / 2 ^ 20) / (6 * 1e-6 * 1) := by
    have hπ := Real.pi_gt_three
    have hr : (0.09:ℝ) ≤ 0.1 - (0.1 - 0.012) / 2 ^ 20 := by norm_num
    have hm : (3:ℝ) * 0.09 ≤ Real.pi * (0.1 - (0.1 - 0.012) / 2 ^ 20) :=
      mul_le_mul hπ.le hr (by norm_num) Real.pi_pos.le
    rw [le_div_iff₀ (by norm_num)]
    linarith
  calc (2:ℝ) ≤ 45000 * 0.5 := by norm_num
  _ ≤ Real.pi * (0.1 - (0.1 - 0.012) / 2 ^ 20) / (6 * 1e-6 * 1) *
      Real.sqrt (3 * 1 * 1 * (0.1 - (0.1 - 0.012) / 2 ^ 20) * 1) :=
    mul_le_mul hfac hs (by norm_num) (by positivity)

/-- C1 (counterexample): on the all-positive configuration
`infeasibleCantileverConfig` the end-of-pipeline invariant fails — the
solver's bracket contains no feasible base, both checks pass, and the
final height (over 1 m) exceeds the `1e-9` m ceiling. -/
theorem orchestrate_invariant_violated :
    ¬ ((orchestrate infeasibleCantileverConfig).2 ≤
          finalBucklingLength infeasibleCantileverConfig ∧
        finalStress infeasibleCantileverConfig ≤
          infeasibleCantileverConfig.maxStress ∧
        (orchestrate infeasibleCantileverConfig).2 ≤
          infeasibleCantileverConfig.maxHeight) := by
  have e1 : infeasibleCantileverConfig.distributedForce = 1 := by
    norm_num [Config.distributedForce, infeasibleCantileverConfig]
  have e2 : infeasibleCantileverConfig.allowableDeflection = 40 := by
    norm_num [Config.allowableDeflection, infeasibleCantileverConfig]
  have e3 : infeasibleCantileverConfig.bucklingBase = 1 := rfl
  have e4 : infeasibleCantileverConfig.cantileverLength = 1 := rfl
  have e5 : infeasibleCantileverConfig.loadOffset = 1 := rfl
  have e6 : infeasibleCantileverConfig.youngsModulus = 1 := rfl
  have e7 : infeasibleCantileverConfig.bucklingKFactor = 1e-6 := rfl
  have e9 : infeasibleCantileverConfig.maxStress = 1e12 := rfl
  have e10 : infeasibleCantileverConfig.stressForce = 1 := by
    norm_num [Config.stressForce, infeasibleCantileverConfig]
  have hsb : infeasibleCantileverConfig.solvedBase =
      0.1 - (0.1 - 0.012) / 2 ^ 20 := by
    rw [Config.solvedBase, e1, e2, e3, e4, e5, e6, e7]
    exact infeasibleConfig_solver_result
  have hsh : infeasibleCantileverConfig.solvedHeight =
      cantilever 40 1 1 1 1 (0.1 - (0.1 - 0.012) / 2 ^ 20) := by
    rw [Config.solvedHeight, e1, e2, e4, e5, e6, hsb]
  obtain ⟨hh1, hh2⟩ := infeasibleConfig_height_bounds
  have hstress : infeasibleCantileverConfig.solvedStress ≤
      infeasibleCantileverConfig.maxStress := by
    rw [Config.solvedStress, e10, e4, e9, hsb, hsh,
      fatigue_stress_half _ _ _ _ (by linarith)]
    have hr : (0.09:ℝ) ≤ 0.1 - (0.1 - 0.012) / 2 ^ 20 := by norm_num
    have hh2' : (1:ℝ) ≤
        (cantilever 40 1 1 1 1 (0.1 - (0.1 - 0.012) / 2 ^ 20)) ^ 2 := by
      nlinarith
    have hden : (0.09:ℝ) * 1 ≤ (0.1 - (0.1 - 0.012) / 2 ^ 20) *
        (cantilever 40 1 1 1 1 (0.1 - (0.1 - 0.012) / 2 ^ 20)) ^ 2 :=
      mul_le_mul hr hh2' (by norm_num) (by linarith)
    calc 6 * 1 * 1 /
          ((0.1 - (0.1 - 0.012) / 2 ^ 20) *
            (cantilever 40 1 1 1 1 (0.1 - (0.1 - 0.012) / 2 ^ 20)) ^ 2)
        ≤ 6 * 1 * 1 / (0.09 * 1) := by
          gcongr
    _ ≤ 1e12 := by norm_num
  have hbuck : infeasibleCantileverConfig.solvedHeight ≤
      buckling infeasibleCantileverConfig.distributedForce
        infeasibleCantileverConfig.youngsModulus
        infeasibleCantileverConfig.bucklingKFactor
        infeasibleCantileverConfig.bucklingBase
        infeasibleCantileverConfig.solvedBase := by
    rw [hsh, e1, e3, e6, e7, hsb]
    linarith [infeasibleConfig_buckling_large]
  have horch := orchestrate_no_corrections infeasibleCantileverConfig
    hstress hbuck
  intro hinv
  obtain ⟨hc1, hc2, hc3⟩ := hinv
  rw [horch] at hc3
  rw [hsh] at hc3
  have : infeasibleCantileverConfig.maxHeight = 1e-9 := rfl
  rw [this] at hc3
  linarith

/-- On the reference configuration the required height is below `3.3` mm
for every base in the bracket. -/
theorem refConfig_cantilever_small : ∀ c : ℝ, 0.012 ≤ c → c ≤ 0.1 →
    cantilever (0.01 * (1 / 180)) (4300 / 12) 0.01 0.01 7.1e10 c <
      0.0033 := by
  intro c h1 h2
  have hc : (0:ℝ) < c := by linarith
  unfold cantilever
  have h4 : 12 * ((4300 / 12 * (0.01:ℝ) ^ 2 * (3 * 0.01 - 0.01)) /
      (6 * 7.1e10 * (0.01 * (1 / 180)))) = 129 / 355000000000 := by
    norm_num
  rw [h4, cbrt_lt_iff _ _ (by positivity) (by norm_num), div_lt_iff₀ hc]
  nlinarith

/-- On the reference configuration the buckling length exceeds `2.7` m for
every base in the bracket. -/
theorem refConfig_buckling_low : ∀ c : ℝ, 0.012 ≤ c → c ≤ 0.1 →
    (2.7:ℝ) ≤ buckling (4300 / 12) 7.1e10 0.5 0.01 c := by
  intro c h1 h2
  have hc : (0:ℝ) < c := by linarith
  unfold buckling
  rw [← Real.sqrt_eq_rpow]
  have hs : (90000:ℝ) ≤ Real.sqrt (3 * 7.1e10 * 0.01 * c * (4300 / 12)) := by
    rw [show (90000:ℝ) = Real.sqrt (90000 ^ 2) from
      (Real.sqrt_sq (by norm_num)).symm]
    apply Real.sqrt_le_sqrt
    nlinarith
  have hfac : (0.00003:ℝ) ≤ Real.pi * c / (6 * 0.5 * (4300 / 12)) := by
    have hπ := Real.pi_gt_three
    have hm : (3:ℝ) * 0.012 ≤ Real.pi * c :=
      mul_le_mul hπ.le h1 (by norm_num) Real.pi_pos.le
    rw [le_div_iff₀ (by norm_num)]
    linarith
  calc (2.7:ℝ) = 0.00003 * 90000 := by norm_num
  _ ≤ Real.pi * c / (6 * 0.5 * (4300 / 12)) *
      Real.sqrt (3 * 7.1e10 * 0.01 * c * (4300 / 12)) :=
    mul_le_mul hfac hs (by norm_num) (by positivity)

/-- On the reference configuration every base in the bracket is feasible:
the required height is under both the buckling length and the `0.01` m
ceiling. -/
theorem refConfig_feasible : ∀ c : ℝ, 0.012 ≤ c → c ≤ 0.1 →
    ¬ solverInfeasible (4300 / 12) (0.01 * (1 / 180)) 0.01 0.01 7.1e10 0.5
      0.01 0.01 c := by
  intro c h1 h2
  have h3 := refConfig_cantilever_small c h1 h2
  have h4 := refConfig_buckling_low c h1 h2
  unfold solverInfeasible calculations
  push_neg
  constructor
  · simpa using by linarith
  · simpa using by linarith

/-- With every midpoint feasible, every iteration lowers the upper bound
and the solver converges onto the bottom of its bracket. -/
theorem refConfig_solver_result :
    find_min_thickness (4300 / 12) (0.01 * (1 / 180)) 0.01 0.01 7.1e10 0.5
        0.01 0.01 = 0.012 + (0.1 - 0.012) / 2 ^ 20 := by
  rw [find_min_thickness, findLoop, numIters_solver,
    show (20:ℕ) = 19 + 1 from rfl,
    bisectN_of_forall_lower _ _ (by norm_num) refConfig_feasible 19]

/-- Bounds on the required height at the solver's returned base on the
reference configuration: between `3.1` mm and `3.2` mm. -/
theorem refConfig_height_bounds :
    0.0031 ≤ cantilever (0.01 * (1 / 180)) (4300 / 12) 0.01 0.01 7.1e10
        (0.012 + (0.1 - 0.012) / 2 ^ 20) ∧
      cantilever (0.01 * (1 / 180)) (4300 / 12) 0.01 0.01 7.1e10
        (0.012 + (0.1 - 0.012) / 2 ^ 20) ≤ 0.0032 := by
  have h4 : 12 * ((4300 / 12 * (0.01:ℝ) ^ 2 * (3 * 0.01 - 0.01)) /
      (6 * 7.1e10 * (0.01 * (1 / 180)))) = 129 / 355000000000 := by
    norm_num
  constructor
  · unfold cantilever
    rw [h4, le_cbrt_iff _ _ (by norm_num) (by norm_num),
      le_div_iff₀ (by norm_num)]
    norm_num
  · unfold cantilever
    rw [h4, cbrt_le_iff _ _ (by norm_num) (by norm_num),
      div_le_iff₀ (by norm_num)]
    norm_num

/-- C3: on the reference configuration the solver converges to a base
strictly inside `(0.012, 0.1)` (namely `0.012 + 0.088/2^20`), no corrector
fires, and the recomputed stress, buckling length and deflection at the
final geometry satisfy their limits within `1e-4` relative tolerance (in
fact with large margins; the deflection meets its limit exactly by
construction). -/
theorem reference_configuration_end_to_end :
    (0.012 < (orchestrate referenceConfig).1 ∧
        (orchestrate referenceConfig).1 < 0.1) ∧
      finalStress referenceConfig ≤ 5.25e8 * (1 + 0.0001) ∧
      (orchestrate referenceConfig).2 ≤
        finalBucklingLength referenceConfig * (1 + 0.0001) ∧
      finalDeflection referenceConfig ≤ 0.01 / 180 * (1 + 0.0001) := by
  have eF : referenceConfig.distributedForce = 4300 / 12 := rfl
  have eFs : referenceConfig.stressForce = 2900 / 12 := rfl
  have ed : referenceConfig.allowableDeflection = 0.01 * (1 / 180) := rfl
  have ebb : referenceConfig.bucklingBase = 0.01 := rfl
  have eL : referenceConfig.cantileverLength = 0.01 := rfl
  have ea : referenceConfig.loadOffset = 0.01 := rfl
  have eE : referenceConfig.youngsModulus = 7.1e10 := rfl
  have eK : referenceConfig.bucklingKFactor = 0.5 := rfl
  have eH : referenceConfig.maxHeight = 0.01 := rfl
  have eσ : referenceConfig.maxStress = 5.25e8 := rfl
  have hsb : referenceConfig.solvedBase =
      0.012 + (0.1 - 0.012) / 2 ^ 20 := by
    rw [Config.solvedBase, eF, ed, eL, ea, eE, eK, ebb, eH]
    exact refConfig_solver_result
  have hsh : referenceConfig.solvedHeight =
      cantilever (0.01 * (1 / 180)) (4300 / 12) 0.01 0.01 7.1e10
        (0.012 + (0.1 - 0.012) / 2 ^ 20) := by
    rw [Config.solvedHeight, eF, ed, eL, ea, eE, hsb]
  obtain ⟨hH1, hH2⟩ := refConfig_height_bounds
  have hb0 : (0.012:ℝ) ≤ 0.012 + (0.1 - 0.012) / 2 ^ 20 := by norm_num
  have hb1 : (0.012:ℝ) + (0.1 - 0.012) / 2 ^ 20 ≤ 0.1 := by norm_num
  have hbl := refConfig_buckling_low _ hb0 hb1
  have hstress : referenceConfig.solvedStress ≤
      referenceConfig.maxStress := by
    rw [Config.solvedStress, eFs, eL, eσ, hsb, hsh,
      fatigue_stress_half _ _ _ _ (by linarith)]
    have hh2 : (0.0031:ℝ) ^ 2 ≤
        (cantilever (0.01 * (1 / 180)) (4300 / 12) 0.01 0.01 7.1e10
          (0.012 + (0.1 - 0.012) / 2 ^ 20)) ^ 2 :=
      pow_le_pow_left₀ (by norm_num) hH1 2
    have hden : (0.012:ℝ) * 0.0031 ^ 2 ≤
        (0.012 + (0.1 - 0.012) / 2 ^ 20) *
          (cantilever (0.01 * (1 / 180)) (4300 / 12) 0.01 0.01 7.1e10
            (0.012 + (0.1 - 0.012) / 2 ^ 20)) ^ 2 :=
      mul_le_mul hb0 hh2 (by positivity) (by norm_num)
    calc 6 * (2900 / 12) * 0.01 /
          ((0.012 + (0.1 - 0.012) / 2 ^ 20) *
            (cantilever (0.01 * (1 / 180)) (4300 / 12) 0.01 0.01 7.1e10
              (0.012 + (0.1 - 0.012) / 2 ^ 20)) ^ 2)
        ≤ 6 * (2900 / 12) * 0.01 / (0.012 * 0.0031 ^ 2) := by
          gcongr
    _ ≤ 5.25e8 := by norm_num
  have hbuck : referenceConfig.solvedHeight ≤
      buckling referenceConfig.distributedForce
        referenceConfig.youngsModulus referenceConfig.bucklingKFactor
        referenceConfig.bucklingBase referenceConfig.solvedBase := by
    rw [hsh, eF, eE, eK, ebb, hsb]
    linarith
  have horch := orchestrate_no_corrections referenceConfig hstress hbuck
  refine ⟨⟨?_, ?_⟩, ?_, ?_, ?_⟩
  · rw [horch]
    show 0.012 < referenceConfig.solvedBase
    rw [hsb]
    norm_num
  · rw [horch]
    show referenceConfig.solvedBase < 0.1
    rw [hsb]
    norm_num
  · rw [finalStress, horch]
    show referenceConfig.solvedStress ≤ _
    rw [eσ] at hstress
    linarith
  · rw [finalBucklingLength, horch]
    show referenceConfig.solvedHeight ≤
      buckling referenceConfig.distributedForce
        referenceConfig.youngsModulus referenceConfig.bucklingKFactor
        referenceConfig.bucklingBase referenceConfig.solvedBase *
        (1 + 0.0001)
    rw [hsh, eF, eE, eK, ebb, hsb]
    linarith
  · rw [finalDeflection, horch]
    show referenceConfig.distributedForce * referenceConfig.loadOffset ^ 2 *
        (3 * referenceConfig.cantileverLength - referenceConfig.loadOffset) /
          (6 * referenceConfig.youngsModulus) * 1 /
        (1 / 12 * referenceConfig.solvedBase *
          referenceConfig.solvedHeight ^ 3) ≤ 0.01 / 180 * (1 + 0.0001)
    rw [eF, ea, eL, eE, hsb, hsh]
    have hcube : (cantilever (0.01 * (1 / 180)) (4300 / 12) 0.01 0.01 7.1e10
        (0.012 + (0.1 - 0.012) / 2 ^ 20)) ^ (3:ℕ) =
        12 * ((4300 / 12 * (0.01:ℝ) ^ 2 * (3 * 0.01 - 0.01)) /
          (6 * 7.1e10 * (0.01 * (1 / 180)))) /
          (0.012 + (0.1 - 0.012) / 2 ^ 20) := by
      unfold cantilever
      exact cbrt_cube _ (by norm_num)
    rw [hcube]
    norm_num

end

end Caca
